import Mathlib

/-!
# Verification of the Raid/Campaign lifecycle and reward-settlement engine

Shallow embedding of the core of the `Sui_Raid` repository:
the `Raid` model (`src/models/raidModel.js`), the XP ledger writer
(`User.addXp` in `src/models/index.js`), the reward calculator
(`Raid.calculateAllRewards`), the settlement loop
(`suiService.distributeRewards` in `src/services/suiService.js`) and the
raid-termination pipeline (`endRaid` in `src/services/raidServices.js`).

JavaScript truthiness matters for several claims, so option-valued fields
carry the `||`-chain semantics of the source explicitly: `0`, `''`, `null`,
`undefined` and `false` are falsy.  Fractional token amounts are modelled
with `ℚ` (the source uses JS numbers; all claims here are about exact
arithmetic identities of the code, not float rounding).
-/

namespace SuiRaid

/-- A JavaScript value, restricted to the shapes the embedded code stores:
`undefined`, `null`, booleans, integers and strings. -/
inductive JSVal where
  | undef : JSVal
  | nil : JSVal
  | bool : Bool → JSVal
  | num : Int → JSVal
  | str : String → JSVal
deriving Repr, DecidableEq

/-- JS truthiness: `undefined`, `null`, `false`, `0` and `""` are falsy. -/
def JSVal.truthy : JSVal → Bool
  | .undef => false
  | .nil => false
  | .bool b => b
  | .num n => n != 0
  | .str s => s != ""

/-- JS `a || b`: returns `a` when truthy, otherwise `b`. -/
def jsOr (a b : JSVal) : JSVal := if a.truthy then a else b

/-- Truthiness of an optional integer field (`none` models `undefined`/`null`,
`some 0` is falsy like the JS number `0`). -/
def intTruthy (x : Option Int) : Bool := x.getD 0 != 0

/-- Truthiness of an optional rational field. -/
def ratTruthy (x : Option ℚ) : Bool := x.getD 0 != 0

/-- Truthiness of an optional string field (`some ""` is falsy). -/
def strTruthy (x : Option String) : Bool := x.getD "" != ""

/-- `a || b || d` over integer-valued JS fields, resolving to a plain
integer with default `d`. -/
def intOrD (a b : Option Int) (d : Int) : Int :=
  if intTruthy a then a.getD 0 else if intTruthy b then b.getD 0 else d

/-- `a || b || null` over integer-valued JS fields. -/
def intOrNull (a b : Option Int) : Option Int :=
  if intTruthy a then a else if intTruthy b then b else none

/-- `a || b || null` over rational-valued JS fields. -/
def ratOrNull (a b : Option ℚ) : Option ℚ :=
  if ratTruthy a then a else if ratTruthy b then b else none

/-- `a || b || null` over string-valued JS fields. -/
def strOrNull (a b : Option String) : Option String :=
  if strTruthy a then a else if strTruthy b then b else none

/-- `a || b || d` over string-valued JS fields with a string default. -/
def strOrD (a b : Option String) (d : String) : String :=
  if strTruthy a then a.getD "" else if strTruthy b then b.getD "" else d

/-- Input object of the `Raid` constructor (`raidModel.js`).  Each JS
property appears under both its snake_case (database row) and camelCase
spelling, exactly as the constructor reads them; `none` is an absent
(`undefined`) property. -/
structure RaidData where
  id : Option Int := none
  tweet_id : Option String := none
  tweetId : Option String := none
  tweet_url : Option String := none
  tweetUrl : Option String := none
  admin_id : Option Int := none
  adminId : Option Int := none
  chat_id : Option Int := none
  chatId : Option Int := none
  start_time : Option Int := none
  startTime : Option Int := none
  end_time : Option Int := none
  endTime : Option Int := none
  is_active : Option Bool := none
  isActive : Option Bool := none
  target_likes : Option Int := none
  targetLikes : Option Int := none
  target_retweets : Option Int := none
  targetRetweets : Option Int := none
  target_comments : Option Int := none
  targetComments : Option Int := none
  actual_likes : Option Int := none
  actualLikes : Option Int := none
  actual_retweets : Option Int := none
  actualRetweets : Option Int := none
  token_type : Option String := none
  tokenType : Option String := none
  token_symbol : Option String := none
  tokenSymbol : Option String := none
  total_reward : Option ℚ := none
  totalReward : Option ℚ := none
  token_per_xp : Option ℚ := none
  tokenPerXp : Option ℚ := none
  threshold_xp : Option Int := none
  thresholdXp : Option Int := none
  campaign_id : Option Int := none
  campaignId : Option Int := none
  status : Option String := none
  message_id : Option Int := none
  messageId : Option Int := none
  duration : Option Int := none
  require_verification : JSVal := .undef
  requireVerification : JSVal := .undef
  description : Option String := none
  actual_comments : Option Int := none
  actualComments : Option Int := none
deriving Repr, DecidableEq

/-- A constructed `Raid` instance with its `||`-chains resolved.
`rewardsDistributed` is present because the services read and assign the
property dynamically, but the constructor never assigns it, so on every
freshly constructed instance it is `undefined`. -/
structure Raid where
  id : Option Int
  tweetId : Option String
  tweetUrl : Option String
  adminId : Option Int
  chatId : Option Int
  startTime : Int
  endTime : Option Int
  isActive : Bool
  targetLikes : Int
  targetRetweets : Int
  targetComments : Int
  actualLikes : Int
  actualRetweets : Int
  actualComments : Int
  tokenType : Option String
  tokenSymbol : Option String
  totalReward : Option ℚ
  tokenPerXp : Option ℚ
  thresholdXp : Int
  campaignId : Option Int
  status : String
  messageId : Option Int
  duration : Int
  requireVerification : JSVal
  description : String
  rewardsDistributed : JSVal
deriving Repr, DecidableEq

/-- The record the `Raid` constructor builds once past the throwing
`targetComments` line (see `mkRaid`). -/
def raidOfData (rd : RaidData) (now : Int) : Raid :=
  { id := rd.id
    tweetId := strOrNull rd.tweet_id rd.tweetId
    tweetUrl := strOrNull rd.tweet_url rd.tweetUrl
    adminId := intOrNull rd.admin_id rd.adminId
    chatId := intOrNull rd.chat_id rd.chatId
    startTime := intOrD rd.start_time rd.startTime now
    endTime := intOrNull rd.end_time rd.endTime
    isActive := rd.is_active.getD (rd.isActive.getD true)
    targetLikes := intOrD rd.target_likes rd.targetLikes 0
    targetRetweets := intOrD rd.target_retweets rd.targetRetweets 0
    targetComments :=
      if intTruthy rd.target_comments then rd.target_comments.getD 0
      else rd.targetComments.getD 0
    actualLikes := intOrD rd.actual_likes rd.actualLikes 0
    actualRetweets := intOrD rd.actual_retweets rd.actualRetweets 0
    actualComments := intOrD rd.actual_comments rd.actualComments 0
    tokenType := strOrNull rd.token_type rd.tokenType
    tokenSymbol := strOrNull rd.token_symbol rd.tokenSymbol
    totalReward := ratOrNull rd.total_reward rd.totalReward
    tokenPerXp := ratOrNull rd.token_per_xp rd.tokenPerXp
    thresholdXp := intOrD rd.threshold_xp rd.thresholdXp 0
    campaignId := intOrNull rd.campaign_id rd.campaignId
    status := strOrD rd.status none "active"
    messageId := intOrNull rd.message_id rd.messageId
    duration := intOrD rd.duration none 3600
    requireVerification :=
      jsOr (jsOr rd.require_verification rd.requireVerification) (.bool true)
    description := strOrD rd.description none ""
    rewardsDistributed := .undef }

/-- The `Raid` constructor.  `now` stands for `new Date()` (the default
`startTime`).  The `targetComments` line of the source is
`raidData.target_comments || raidData.targetComments || a0` where `a0` is
an undefined identifier: when both operands are falsy the constructor
evaluates `a0` and throws `ReferenceError`, which this embedding returns
as an `Except.error`. -/
def mkRaid (rd : RaidData) (now : Int) : Except String Raid :=
  if intTruthy rd.target_comments ∨ intTruthy rd.targetComments then
    .ok (raidOfData rd now)
  else
    .error "ReferenceError: a0 is not defined"

/-- Approximation of the constructor-validation regex
`twitter.com\/\w+\/status\/(\d+)`: the URL must contain
`twitter.com/<word>/status/<digits>`; the digits are the tweet id. -/
def extractTweetId (url : String) : Option String :=
  match url.splitOn "/status/" with
  | [before, rest] =>
    let digits := rest.takeWhile Char.isDigit
    match before.splitOn "twitter.com/" with
    | [_, user] =>
      if digits ≠ "" ∧ user ≠ "" ∧ user.all (fun c => c.isAlphanum || c == '_')
      then some digits else none
    | _ => none
  | _ => none

/-- `Raid.validate()`: collects validation errors and (as in the source,
which mutates `this.tweetId`) returns the instance with the tweet id
filled in from the URL when it was missing. -/
def Raid.validateFix (r : Raid) : List String × Raid :=
  let e1 := if ¬strTruthy r.tweetUrl then ["Tweet URL is required"] else []
  let e2 := if ¬intTruthy r.adminId then ["Admin ID is required"] else []
  let e3 := if ¬intTruthy r.chatId then ["Chat ID is required"] else []
  let er : List String × Raid :=
    if ¬strTruthy r.tweetId ∧ strTruthy r.tweetUrl then
      match extractTweetId (r.tweetUrl.getD "") with
      | some tid => ([], { r with tweetId := some tid })
      | none => (["Invalid Tweet URL format"], r)
    else ([], r)
  let e5 :=
    if ratTruthy r.totalReward ∧ (¬strTruthy r.tokenType ∨ ¬strTruthy r.tokenSymbol)
    then ["Token type and symbol are required for rewards"] else []
  (e1 ++ e2 ++ e3 ++ er.1 ++ e5, er.2)

/-- The row object `Raid.save()` writes to the `raids` table.  Note that
`rewards_distributed` is *not* among the persisted columns, and the
constructor of `Raid` never reads it either. -/
def Raid.toRow (r : Raid) : RaidData :=
  { id := r.id
    tweet_id := r.tweetId
    tweet_url := r.tweetUrl
    admin_id := r.adminId
    chat_id := r.chatId
    start_time := some r.startTime
    end_time := r.endTime
    is_active := some r.isActive
    target_likes := some r.targetLikes
    target_retweets := some r.targetRetweets
    target_comments := some r.targetComments
    actual_likes := some r.actualLikes
    actual_retweets := some r.actualRetweets
    actual_comments := some r.actualComments
    token_type := r.tokenType
    token_symbol := r.tokenSymbol
    total_reward := r.totalReward
    token_per_xp := r.tokenPerXp
    threshold_xp := some r.thresholdXp
    campaign_id := r.campaignId
    status := some r.status
    message_id := r.messageId
    duration := some r.duration
    require_verification := r.requireVerification
    description := some r.description }

/-- `Raid.save()`: validates, writes the row, and returns
`new Raid(result)` — a *fresh* instance rebuilt from the persisted row,
which therefore loses any dynamically assigned property such as
`rewardsDistributed`. -/
def Raid.save (r : Raid) (now : Int) : Except String Raid :=
  let vr := r.validateFix
  if vr.1 ≠ [] then .error "Raid validation failed"
  else mkRaid vr.2.toRow now

/-- `Raid.isTargetMet()`: met when no targets are configured, otherwise
every actual counter must reach its target. -/
def Raid.isTargetMet (r : Raid) : Bool :=
  if r.targetLikes == 0 && r.targetRetweets == 0 && r.targetComments == 0 then true
  else
    r.actualLikes >= r.targetLikes && r.actualRetweets >= r.targetRetweets &&
      r.actualComments >= r.targetComments

/-- `Raid.end(options)` from `raidModel.js`: set `endTime` if unset,
compute the terminal status (`cancelled` wins when requested, otherwise
`completed`/`failed` from `isTargetMet`), clear `isActive`, and save.
Named `endOp` because `end` is a Lean keyword. -/
def Raid.endOp (r : Raid) (cancelled : Bool) (now : Int) : Except String Raid :=
  let r1 := if intTruthy r.endTime then r else { r with endTime := some now }
  let r2 :=
    if cancelled then { r1 with status := "cancelled" }
    else { r1 with status := if r1.isTargetMet then "completed" else "failed" }
  Raid.save { r2 with isActive := false } now

/-- A `user_actions` row. -/
structure UserAction where
  userId : Int
  raidId : Option Int
  actionType : String
  xpEarned : Nat
  verified : Bool
deriving Repr, DecidableEq

/-- Count of `user_actions` rows of one action type for a raid
(the recount query of `updateStatistics`). -/
def countActions (acts : List UserAction) (rid : Option Int) (ty : String) : Int :=
  ((acts.filter fun a => a.raidId == rid && a.actionType == ty).length : Int)

/-- `Raid.updateStatistics()`: recount the `actuals` counters from the
`user_actions` rows and save.  Callers in the source discard the saved
copy and keep using the mutated instance, so the mutated instance is
returned here. -/
def Raid.updateStatistics (r : Raid) (acts : List UserAction) (now : Int) :
    Except String Raid :=
  let r' := { r with
    actualLikes := countActions acts r.id "like"
    actualRetweets := countActions acts r.id "retweet"
    actualComments := countActions acts r.id "comment" }
  match r'.save now with
  | .ok _ => .ok r'
  | .error _ => .error "Failed to update raid statistics"

/-- One row of the aggregation query behind `Raid.calculateAllRewards`:
a participant's summed raid XP joined with their wallet columns. -/
structure XpEntry where
  userId : Int
  totalXp : Nat
  walletConnected : Bool
  walletAddress : String
deriving Repr, DecidableEq

/-- A computed reward, as pushed by `calculateAllRewards`. -/
structure Reward where
  telegramId : Int
  walletAddress : String
  xpAmount : Nat
  tokenAmount : ℚ
  tokenSymbol : Option String
  tokenType : Option String
  raidId : Option Int
  campaignId : Option Int
deriving Repr, DecidableEq

/-- The first-pass filter of `calculateAllRewards`: skip users without a
connected wallet, then skip users under a positive threshold. -/
def eligibleEntry (thresholdXp : Int) (e : XpEntry) : Bool :=
  (e.walletConnected && e.walletAddress != "") &&
  !(decide (thresholdXp > 0) && decide ((e.totalXp : Int) < thresholdXp))

/-- `Raid.calculateAllRewards()`: two passes — filter to eligible users
summing their XP, then compute each amount (fixed rate when `tokenPerXp`
is truthy, otherwise a pro-rata share of `totalReward` guarded by
`totalEligibleXp > 0`, otherwise zero). -/
def Raid.calculateAllRewards (r : Raid) (entries : List XpEntry) : List Reward :=
  let eligibleUsers := entries.filter (eligibleEntry r.thresholdXp)
  let totalEligibleXp : Nat := (eligibleUsers.map XpEntry.totalXp).sum
  eligibleUsers.map fun e =>
    { telegramId := e.userId
      walletAddress := e.walletAddress
      xpAmount := e.totalXp
      tokenAmount :=
        if ratTruthy r.tokenPerXp then (e.totalXp : ℚ) * r.tokenPerXp.getD 0
        else if ratTruthy r.totalReward && decide (0 < totalEligibleXp) then
          ((e.totalXp : ℚ) / (totalEligibleXp : ℚ)) * r.totalReward.getD 0
        else 0
      tokenSymbol := r.tokenSymbol
      tokenType := r.tokenType
      raidId := r.id
      campaignId := r.campaignId }

/-- The `config.xp.actions` table (env-overridable; defaults in
`config/config.js` are 10/10/15/20/25/5). -/
structure XpConfig where
  like : Nat
  retweet : Nat
  comment : Nat
  commentWithImage : Nat
  commentWithGif : Nat
  bookmark : Nat
deriving Repr, DecidableEq

/-- The default XP table of `config/config.js`. -/
def defaultXpConfig : XpConfig :=
  { like := 10, retweet := 10, comment := 15, commentWithImage := 20
    commentWithGif := 25, bookmark := 5 }

/-- The extra data accompanying a recorded action. -/
structure ActionData where
  hasMedia : Bool := false
  isGif : Bool := false
  verified : Bool := false
deriving Repr, DecidableEq

/-- `Raid.getXpForAction`: the deterministic XP table, with image and GIF
bonus tiers for comments; unknown action types earn 0. -/
def getXpForAction (cfg : XpConfig) (actionType : String) (ad : ActionData) : Nat :=
  if actionType == "like" then cfg.like
  else if actionType == "retweet" then cfg.retweet
  else if actionType == "comment" then
    if ad.hasMedia then (if ad.isGif then cfg.commentWithGif else cfg.commentWithImage)
    else cfg.comment
  else if actionType == "bookmark" then cfg.bookmark
  else 0

/-- An `xp_transactions` (XP-ledger) row. -/
structure LedgerEntry where
  userId : Int
  amount : Int
  sourceType : String
  sourceId : Option Int
  previousTotal : Int
  newTotal : Int
deriving Repr, DecidableEq

/-- A `users` row, restricted to the columns the embedded code reads. -/
structure UserRec where
  telegramId : Int
  totalXp : Int
  isVerified : Bool
deriving Repr, DecidableEq

/-- `User.addXp` (`models/index.js`): first insert the ledger entry
carrying `previousTotal`/`newTotal`, then update the user's cached
`totalXp` and save.  The two database writes can fail independently;
`insertOk`/`saveOk` model their outcomes.  The returned list is the
ledger as actually committed: when the cached-total save fails the
already inserted entry stays committed. -/
def User.addXp (u : UserRec) (amount : Int) (sourceType : String)
    (sourceId : Option Int) (ledger : List LedgerEntry)
    (insertOk saveOk : Bool) : Except String UserRec × List LedgerEntry :=
  if insertOk then
    let entry : LedgerEntry :=
      { userId := u.telegramId, amount := amount, sourceType := sourceType
        sourceId := sourceId, previousTotal := u.totalXp
        newTotal := u.totalXp + amount }
    let ledger' := ledger ++ [entry]
    if saveOk then (.ok { u with totalXp := u.totalXp + amount }, ledger')
    else (.error "Failed to add XP to user", ledger')
  else (.error "Failed to add XP to user", ledger)

/-- The persisted state `recordUserAction` touches. -/
structure ActionState where
  actions : List UserAction
  ledger : List LedgerEntry
  users : List UserRec
deriving Repr, DecidableEq

/-- The result object of `recordUserAction`. -/
inductive RecordOutcome where
  | ok (xpEarned : Nat)
  | err (msg : String)
deriving Repr, DecidableEq

/-- `Raid.recordUserAction` (`raidModel.js`): reject when the raid is
inactive; reject as duplicate when a `user_actions` row for
(userId, raidId, actionType) exists (the source's `.single()` sets
`existingAction` exactly when one row matches); otherwise compute XP from
the table, apply `Math.floor(xp * 0.75)` when the action is not a like
and no prior like row exists, insert the row and credit the ledger via
`User.addXp`.  The two ledger flags model `addXp`'s database outcomes;
when `addXp` throws, the method reports failure but the action row stays
committed. -/
def Raid.recordUserAction (r : Raid) (cfg : XpConfig) (telegramId : Int)
    (actionType : String) (ad : ActionData) (st : ActionState)
    (xpInsertOk xpSaveOk : Bool) :
    RecordOutcome × ActionState :=
  if !r.isActive then (.err "Raid is not active", st)
  else
    let tupleMatches := st.actions.filter fun a =>
      a.userId == telegramId && a.raidId == r.id && a.actionType == actionType
    if tupleMatches.length == 1 then
      (.err "You have already performed this action", st)
    else
      let base := getXpForAction cfg actionType ad
      let likeMatches := st.actions.filter fun a =>
        a.userId == telegramId && a.raidId == r.id && a.actionType == "like"
      let xpEarned :=
        if actionType != "like" && likeMatches.length != 1 then (3 * base) / 4
        else base
      let row : UserAction :=
        { userId := telegramId, raidId := r.id, actionType := actionType
          xpEarned := xpEarned, verified := ad.verified }
      let st1 := { st with actions := st.actions ++ [row] }
      match st1.users.find? (fun u => u.telegramId == telegramId) with
      | some u =>
        let (res, ledger') :=
          User.addXp u (xpEarned : Int) "raid" r.id st1.ledger xpInsertOk xpSaveOk
        match res with
        | .ok u' =>
          (.ok xpEarned,
            { st1 with
              ledger := ledger'
              users := st1.users.map fun v =>
                if v.telegramId == telegramId then u' else v })
        | .error _ => (.err "Failed to record action", { st1 with ledger := ledger' })
      | none => (.ok xpEarned, st1)

/-- `recordUserAction` of `raidServices.js` (raid and user lookups are
abstracted into the arguments): rejects inactive raids, then rejects
unverified users whenever `raid.requireVerification` is truthy, then
delegates to the model method. -/
def serviceRecordUserAction (r : Raid) (u : UserRec) (cfg : XpConfig)
    (actionType : String) (ad : ActionData) (st : ActionState) :
    RecordOutcome × ActionState :=
  if !r.isActive then (.err "Raid is no longer active", st)
  else if r.requireVerification.truthy && !u.isVerified then
    (.err "You need to verify your account by connecting your Twitter account", st)
  else r.recordUserAction cfg u.telegramId actionType ad st true true

/-- A reward object as read by `suiService.distributeRewards`: only the
fields the settlement loop inspects, each with JS truthiness. -/
structure SReward where
  telegramId : Int
  walletAddress : Option String
  tokenAmount : Option ℚ
  tokenType : Option String
deriving Repr, DecidableEq

/-- The validation at the top of the settlement loop:
`!reward.walletAddress || !reward.tokenAmount || !reward.tokenType`
throws `Missing required reward data`. -/
def SReward.hasRequiredData (rw : SReward) : Bool :=
  strTruthy rw.walletAddress && ratTruthy rw.tokenAmount && strTruthy rw.tokenType

/-- A `token_transactions` audit row, written by `sendTokens` right after
each transfer attempt. -/
structure TokenTxRec where
  recipientAddress : String
  coinType : String
  amount : ℚ
  txId : Option String
  status : String
deriving Repr, DecidableEq

/-- An element of the `successful`/`failed` lists returned by
`distributeRewards`. -/
structure DistEntry where
  telegramId : Int
  walletAddress : String
  amount : Option ℚ
  tokenType : Option String
  txId : Option String
  errMsg : Option String
deriving Repr, DecidableEq

/-- The `{successful, failed}` result of `distributeRewards`. -/
structure DistResult where
  successful : List DistEntry
  failed : List DistEntry
deriving Repr, DecidableEq

/-- `suiService.distributeRewards`: for each reward in order, validate its
data, invoke the transfer (`sendTokens`, whose transaction
creation/broadcast step is the external collaborator `transfer`;
`sendTokens` appends a success or failed `token_transactions` record right
after the attempt), push to `successful` or `failed`, and continue to the
next recipient regardless of outcome.  Returns the result lists, the
audit trail after the batch, and the list of telegram ids for which the
transfer collaborator was actually invoked, in call order. -/
def distributeRewards (transfer : SReward → Except String String) :
    List SReward → List TokenTxRec → DistResult × List TokenTxRec × List Int
  | [], trail => ({ successful := [], failed := [] }, trail, [])
  | rw :: rest, trail =>
    if rw.hasRequiredData then
      match transfer rw with
      | .ok txId =>
        let txRec : TokenTxRec :=
          { recipientAddress := rw.walletAddress.getD ""
            coinType := rw.tokenType.getD "", amount := rw.tokenAmount.getD 0
            txId := some txId, status := "success" }
        let out := distributeRewards transfer rest (trail ++ [txRec])
        ({ out.1 with successful :=
            { telegramId := rw.telegramId, walletAddress := rw.walletAddress.getD ""
              amount := rw.tokenAmount, tokenType := rw.tokenType
              txId := some txId, errMsg := none } :: out.1.successful },
          out.2.1, rw.telegramId :: out.2.2)
      | .error e =>
        let txRec : TokenTxRec :=
          { recipientAddress := rw.walletAddress.getD ""
            coinType := rw.tokenType.getD "", amount := rw.tokenAmount.getD 0
            txId := none, status := "failed" }
        let out := distributeRewards transfer rest (trail ++ [txRec])
        ({ out.1 with failed :=
            { telegramId := rw.telegramId, walletAddress := rw.walletAddress.getD ""
              amount := rw.tokenAmount, tokenType := rw.tokenType
              txId := none, errMsg := some ("Failed to send tokens: " ++ e) } :: out.1.failed },
          out.2.1, rw.telegramId :: out.2.2)
    else
      let out := distributeRewards transfer rest trail
      ({ out.1 with failed :=
          { telegramId := rw.telegramId
            walletAddress := if strTruthy rw.walletAddress then rw.walletAddress.getD "" else "unknown"
            amount := rw.tokenAmount, tokenType := rw.tokenType
            txId := none, errMsg := some "Missing required reward data" } :: out.1.failed },
        out.2.1, out.2.2)

/-- Projection of a calculated `Reward` to the fields the settlement loop
reads. -/
def Reward.toSReward (rw : Reward) : SReward :=
  { telegramId := rw.telegramId, walletAddress := some rw.walletAddress
    tokenAmount := some rw.tokenAmount, tokenType := rw.tokenType }

/-- The environment `endRaid` queries: the raid's `user_actions` rows (for
the statistics recount) and the per-user XP aggregation joined with
wallets (for the calculator). -/
structure RaidEnv where
  actions : List UserAction
  xpEntries : List XpEntry
deriving Repr, DecidableEq

/-- `endRaid` of `raidServices.js`: `raid.end()`, statistics recount,
reward calculation guarded by
`status == completed && (totalReward || tokenPerXp) && !rewardsDistributed`,
then — only when rewards exist and the raid has no `campaignId` — the
settlement batch, after which `rewardsDistributed = true` is assigned on
the in-memory instance and the raid saved (a write that drops the flag,
since neither `save()` nor the constructor carries it).  Returns the raid
instance the service ends with, the audit trail, and the transfer calls
made. -/
def endRaid (transfer : SReward → Except String String) (r : Raid)
    (env : RaidEnv) (trail : List TokenTxRec) (cancelled : Bool) (now : Int) :
    Except String Raid × List TokenTxRec × List Int :=
  match r.endOp cancelled now with
  | .error e => (.error ("Failed to end raid: " ++ e), trail, [])
  | .ok endedRaid =>
    match endedRaid.updateStatistics env.actions now with
    | .error e => (.error ("Failed to end raid: " ++ e), trail, [])
    | .ok er =>
      let rewards :=
        if er.status == "completed" &&
            (ratTruthy er.totalReward || ratTruthy er.tokenPerXp) &&
            !er.rewardsDistributed.truthy
        then er.calculateAllRewards env.xpEntries
        else []
      if decide (0 < rewards.length) && !intTruthy er.campaignId then
        let out := distributeRewards transfer (rewards.map Reward.toSReward) trail
        let er2 := { er with rewardsDistributed := .bool true }
        match er2.save now with
        | .ok _ => (.ok er2, out.2.1, out.2.2)
        | .error _ =>
          (.error "Failed to end raid: Failed to distribute rewards", out.2.1, out.2.2)
      else (.ok er, trail, [])

/-! ## Helper lemmas -/

/-- A constructor success is exactly a truthy comments target together with
the resolved record. -/
lemma mkRaid_eq_ok_iff (rd : RaidData) (now : Int) (r : Raid) :
    mkRaid rd now = .ok r ↔
      ((intTruthy rd.target_comments ∨ intTruthy rd.targetComments) ∧
        r = raidOfData rd now) := by
  unfold mkRaid
  split <;> rename_i hc
  · constructor
    · intro h
      injection h with h'
      exact ⟨hc, h'.symm⟩
    · rintro ⟨-, rfl⟩
      rfl
  · constructor
    · intro h
      exact absurd h (by simp)
    · rintro ⟨hcc, -⟩
      exact absurd hcc hc

/-- `v || true` is always truthy. -/
lemma jsOr_bool_true_truthy (v : JSVal) : (jsOr v (.bool true)).truthy = true := by
  unfold jsOr
  split
  · assumption
  · rfl

/-! ## C9: missing comments target crashes the constructor -/

/-- C9: for every raid input in which both `target_comments` and
`targetComments` are absent, zero or otherwise falsy, the `Raid`
constructor evaluates the undefined identifier `a0` and throws a
`ReferenceError`, so such a raid fails at construction. -/
theorem mkRaid_missing_comments_target (rd : RaidData) (now : Int)
    (h1 : rd.target_comments.getD 0 = 0) (h2 : rd.targetComments.getD 0 = 0) :
    mkRaid rd now = .error "ReferenceError: a0 is not defined" := by
  unfold mkRaid
  simp [intTruthy, h1, h2]

/-- Witness for C9: a raid input with a likes target but no comments
target crashes at construction. -/
theorem mkRaid_missing_comments_target_witness :
    mkRaid { target_likes := some 5 } 100 =
      .error "ReferenceError: a0 is not defined" :=
  mkRaid_missing_comments_target { target_likes := some 5 } 100 (by rfl) (by rfl)

/-! ## C10: requireVerification is coerced to truthy -/

/-- The constructor input that stores `require_verification = false`:
used to exhibit the `|| true` coercion. -/
def rdStoredNoVerification : RaidData :=
  { target_comments := some 1, require_verification := .bool false }

/-- The raid reloaded from `rdStoredNoVerification`. -/
def raidNoVerification : Raid := raidOfData rdStoredNoVerification 50

/-- An unverified participant. -/
def unverifiedUser : UserRec := { telegramId := 3, totalXp := 0, isVerified := false }

/-- An empty persisted-state snapshot. -/
def emptyActionState : ActionState := { actions := [], ledger := [], users := [] }

/-- C10: every constructed raid has truthy `requireVerification` — the
constructor's `require_verification || requireVerification || true` chain
coerces a stored `false` to `true` — and consequently the service-level
`recordUserAction` rejects every unverified user on an active raid. -/
theorem raid_requireVerification_always_truthy (rd : RaidData) (now : Int)
    (r : Raid) (h : mkRaid rd now = .ok r) :
    r.requireVerification.truthy = true ∧
    ∀ (u : UserRec) (cfg : XpConfig) (actionType : String) (ad : ActionData)
      (st : ActionState), r.isActive = true → u.isVerified = false →
      (serviceRecordUserAction r u cfg actionType ad st).1 =
        .err "You need to verify your account by connecting your Twitter account" := by
  obtain ⟨-, hr⟩ := (mkRaid_eq_ok_iff rd now r).mp h
  subst hr
  have htr : (raidOfData rd now).requireVerification.truthy = true :=
    jsOr_bool_true_truthy _
  refine ⟨htr, ?_⟩
  intro u cfg actionType ad st hAct hVer
  unfold serviceRecordUserAction
  simp [hAct, htr, hVer]

/-- Witness for C10: a raid stored with `require_verification = false`
still has truthy `requireVerification` and still rejects an unverified
user's like. -/
theorem raid_requireVerification_always_truthy_witness :
    raidNoVerification.requireVerification.truthy = true ∧
    (serviceRecordUserAction raidNoVerification unverifiedUser defaultXpConfig
        "like" {} emptyActionState).1 =
      .err "You need to verify your account by connecting your Twitter account" := by
  have h := raid_requireVerification_always_truthy rdStoredNoVerification 50
    raidNoVerification (by rfl)
  exact ⟨h.1, h.2 unverifiedUser defaultXpConfig "like" {} emptyActionState
    (by rfl) (by rfl)⟩

/-! ## Settlement-loop lemmas -/

/-- Whether the transfer collaborator succeeds on a reward. -/
def transferOk (transfer : SReward → Except String String) (rw : SReward) : Bool :=
  match transfer rw with
  | .ok _ => true
  | .error _ => false

/-- The transfer collaborator is invoked for exactly the rewards whose data
passes validation, in batch order — independent of the incoming trail. -/
lemma distributeRewards_calls (transfer : SReward → Except String String)
    (rewards : List SReward) (trail : List TokenTxRec) :
    (distributeRewards transfer rewards trail).2.2 =
      (rewards.filter SReward.hasRequiredData).map SReward.telegramId := by
  induction rewards generalizing trail with
  | nil => rfl
  | cons rw rest ih =>
    by_cases h : rw.hasRequiredData
    · cases htr : transfer rw with
      | ok tx => simp [distributeRewards, h, htr, ih]
      | error e => simp [distributeRewards, h, htr, ih]
    · simp [distributeRewards, h, ih]

/-- The `{successful, failed}` result does not depend on the incoming
audit trail. -/
lemma distributeRewards_result_trail_irrel (transfer : SReward → Except String String)
    (rewards : List SReward) (trail trail' : List TokenTxRec) :
    (distributeRewards transfer rewards trail).1 =
      (distributeRewards transfer rewards trail').1 := by
  induction rewards generalizing trail trail' with
  | nil => rfl
  | cons rw rest ih =>
    by_cases h : rw.hasRequiredData
    · cases htr : transfer rw with
      | ok tx =>
        simp [distributeRewards, h, htr]
        exact ⟨congrArg DistResult.successful (ih _ _),
               congrArg DistResult.failed (ih _ _)⟩
      | error e =>
        simp [distributeRewards, h, htr]
        exact ⟨congrArg DistResult.successful (ih _ _),
               congrArg DistResult.failed (ih _ _)⟩
    · simp [distributeRewards, h]
      exact ⟨congrArg DistResult.successful (ih _ _),
             congrArg DistResult.failed (ih _ _)⟩

/-- `successful` collects exactly the rewards with complete data whose
transfer succeeded, in order. -/
lemma distributeRewards_successful_ids (transfer : SReward → Except String String)
    (rewards : List SReward) (trail : List TokenTxRec) :
    (distributeRewards transfer rewards trail).1.successful.map DistEntry.telegramId =
      (rewards.filter fun rw => rw.hasRequiredData && transferOk transfer rw).map
        SReward.telegramId := by
  induction rewards generalizing trail with
  | nil => rfl
  | cons rw rest ih =>
    by_cases h : rw.hasRequiredData
    · cases htr : transfer rw with
      | ok tx => simp [distributeRewards, h, htr, transferOk, ih]
      | error e => simp [distributeRewards, h, htr, transferOk, ih]
    · simp [distributeRewards, h, ih]

/-- `failed` collects exactly the rewards whose attempt failed
(incomplete data or a transfer error), in order. -/
lemma distributeRewards_failed_ids (transfer : SReward → Except String String)
    (rewards : List SReward) (trail : List TokenTxRec) :
    (distributeRewards transfer rewards trail).1.failed.map DistEntry.telegramId =
      (rewards.filter fun rw => !(rw.hasRequiredData && transferOk transfer rw)).map
        SReward.telegramId := by
  induction rewards generalizing trail with
  | nil => rfl
  | cons rw rest ih =>
    by_cases h : rw.hasRequiredData
    · cases htr : transfer rw with
      | ok tx => simp [distributeRewards, h, htr, transferOk, ih]
      | error e => simp [distributeRewards, h, htr, transferOk, ih]
    · simp [distributeRewards, h, ih]

/-! ## C1: settlement does not consult the audit trail -/

/-- A reward whose recipient already has a `success` entry in the audit
trail. -/
def settledReward : SReward :=
  { telegramId := 1, walletAddress := some "0xA", tokenAmount := some 5
    tokenType := some "0x2::sui::SUI" }

/-- An audit trail holding a prior `success` record for `settledReward`'s
recipient. -/
def priorSuccessTrail : List TokenTxRec :=
  [{ recipientAddress := "0xA", coinType := "0x2::sui::SUI", amount := 5
     txId := some "0xold", status := "success" }]

/-- C1 counterexample: the audit trail contains a `success` entry for
recipient 1, yet replaying the batch invokes the transfer collaborator
for recipient 1 again — the settle loop never reads the trail, so no
recipient is ever skipped. -/
theorem settle_retransfers_settled_recipient :
    (priorSuccessTrail.filter fun t =>
      t.recipientAddress == "0xA" && t.status == "success").length = 1 ∧
    (distributeRewards (fun _ => .ok "0xnew") [settledReward]
      priorSuccessTrail).2.2 = [1] :=
  ⟨by decide, by decide⟩

/-- C1 (amended): `distributeRewards` never consults the settlement audit
trail — the transfer collaborator is invoked for exactly the rewards with
complete data, in batch order, whatever the trail contains, and both the
result lists and the calls made are independent of the incoming trail;
in particular recipients without a success entry are attempted, but so is
everyone else. -/
theorem settle_attempts_every_complete_reward
    (transfer : SReward → Except String String) (rewards : List SReward)
    (trail trail' : List TokenTxRec) :
    (distributeRewards transfer rewards trail).2.2 =
      (rewards.filter SReward.hasRequiredData).map SReward.telegramId ∧
    (distributeRewards transfer rewards trail).1 =
      (distributeRewards transfer rewards trail').1 ∧
    (distributeRewards transfer rewards trail).2.2 =
      (distributeRewards transfer rewards trail').2.2 := by
  refine ⟨distributeRewards_calls transfer rewards trail, ?_, ?_⟩
  · exact distributeRewards_result_trail_irrel transfer rewards trail trail'
  · rw [distributeRewards_calls, distributeRewards_calls]

/-! ## C5: partial failure isolation -/

/-- C5: one recipient's transfer failure never blocks another recipient:
the transfer collaborator is invoked for every reward with complete data
regardless of earlier outcomes, `successful` collects exactly the
recipients whose transfer succeeded, and `failed` collects exactly the
recipients whose attempt failed. -/
theorem settle_partial_failure_isolation
    (transfer : SReward → Except String String) (rewards : List SReward)
    (trail : List TokenTxRec) :
    (distributeRewards transfer rewards trail).1.successful.map DistEntry.telegramId =
      (rewards.filter fun rw => rw.hasRequiredData && transferOk transfer rw).map
        SReward.telegramId ∧
    (distributeRewards transfer rewards trail).1.failed.map DistEntry.telegramId =
      (rewards.filter fun rw => !(rw.hasRequiredData && transferOk transfer rw)).map
        SReward.telegramId ∧
    (distributeRewards transfer rewards trail).2.2 =
      (rewards.filter SReward.hasRequiredData).map SReward.telegramId :=
  ⟨distributeRewards_successful_ids transfer rewards trail,
   distributeRewards_failed_ids transfer rewards trail,
   distributeRewards_calls transfer rewards trail⟩

/-! ## C4: eligibility and pool-share correctness -/

/-- The spec's eligibility rule, written from its words: a user qualifies
iff (`thresholdXp == 0` or XP at least the threshold) and they have a
connected payout wallet. -/
def qualifiesSpec (thresholdXp : Int) (e : XpEntry) : Bool :=
  (thresholdXp == 0 || decide (thresholdXp ≤ (e.totalXp : Int))) &&
  (e.walletConnected && e.walletAddress != "")

/-- The code's first-pass filter agrees with the spec's eligibility rule
(XP totals are sums of non-negative ledger amounts, hence `ℕ`). -/
lemma eligibleEntry_eq_qualifiesSpec (t : Int) (e : XpEntry) :
    eligibleEntry t e = qualifiesSpec t e := by
  rcases e with ⟨u, xp, wc, addr⟩
  simp only [eligibleEntry, qualifiesSpec]
  rw [Bool.eq_iff_iff]
  simp only [Bool.and_eq_true, Bool.or_eq_true, Bool.not_eq_true',
    decide_eq_true_eq, beq_iff_eq, bne_iff_ne, ne_eq,
    Bool.and_eq_false_iff, decide_eq_false_iff_not, not_lt]
  constructor
  · rintro ⟨hw, ht⟩
    exact ⟨by omega, hw⟩
  · rintro ⟨ht, hw⟩
    exact ⟨hw, by omega⟩

/-- C4: the calculator's reward list contains exactly the qualifying
users (spec rule); under pool-share configuration every reward is the
exact pro-rata share of the pool over the *qualifying* users' XP; and an
empty qualifying set yields an empty reward list. -/
theorem calculateAllRewards_spec (r : Raid) (entries : List XpEntry) :
    ((r.calculateAllRewards entries).map Reward.telegramId =
      (entries.filter (qualifiesSpec r.thresholdXp)).map XpEntry.userId) ∧
    (∀ pool : ℚ, r.tokenPerXp.getD 0 = 0 → r.totalReward = some pool →
      ∀ rw ∈ r.calculateAllRewards entries,
        rw.tokenAmount =
          ((rw.xpAmount : ℚ) /
            ((((entries.filter (qualifiesSpec r.thresholdXp)).map
              XpEntry.totalXp).sum : ℕ) : ℚ)) * pool) ∧
    (entries.filter (qualifiesSpec r.thresholdXp) = [] →
      r.calculateAllRewards entries = []) := by
  have hfil : entries.filter (eligibleEntry r.thresholdXp) =
      entries.filter (qualifiesSpec r.thresholdXp) :=
    List.filter_congr fun e _ => eligibleEntry_eq_qualifiesSpec r.thresholdXp e
  refine ⟨?_, ?_, ?_⟩
  · simp [Raid.calculateAllRewards, hfil, List.map_map, Function.comp]
  · intro pool hper htot rw hrw
    simp only [Raid.calculateAllRewards, hfil, List.mem_map] at hrw
    obtain ⟨e, he, rfl⟩ := hrw
    have hperF : ratTruthy r.tokenPerXp = false := by
      simp [ratTruthy, hper]
    simp only [hperF, Bool.false_eq_true, if_false, htot]
    by_cases hpool : ratTruthy (some pool)
    · by_cases hsum : 0 <
        ((entries.filter (qualifiesSpec r.thresholdXp)).map XpEntry.totalXp).sum
      · simp [hpool, hsum]
      · have h0 : ((entries.filter (qualifiesSpec r.thresholdXp)).map
            XpEntry.totalXp).sum = 0 := by omega
        simp [hpool, hsum, h0]
    · have hp0 : pool = 0 := by
        by_contra hne
        exact hpool (by simp [ratTruthy, Option.getD, hne])
      simp [hpool, hp0]
  · intro hempty
    simp [Raid.calculateAllRewards, hfil, hempty]

/-- A completed pool-share raid: pool 1000, no threshold, no fixed rate. -/
def poolRaid : Raid :=
  { id := some 1, tweetId := some "123"
    tweetUrl := some "https://twitter.com/u/status/123"
    adminId := some 5, chatId := some 9, startTime := 100, endTime := none
    isActive := false, targetLikes := 0, targetRetweets := 0, targetComments := 1
    actualLikes := 0, actualRetweets := 0, actualComments := 1
    tokenType := some "0x2::sui::SUI", tokenSymbol := some "SUI"
    totalReward := some 1000, tokenPerXp := none, thresholdXp := 0
    campaignId := none, status := "completed", messageId := none, duration := 3600
    requireVerification := .bool true, description := ""
    rewardsDistributed := .undef }

/-- Three wallet-connected participants with XP 100, 300 and 600. -/
def poolEntries : List XpEntry :=
  [{ userId := 7, totalXp := 100, walletConnected := true, walletAddress := "0xa" },
   { userId := 8, totalXp := 300, walletConnected := true, walletAddress := "0xb" },
   { userId := 9, totalXp := 600, walletConnected := true, walletAddress := "0xc" }]

/-- Witness for C4: on XP `[100, 300, 600]`, threshold 0 and pool 1000 the
rewards are exactly `[100, 300, 600]` tokens, and an empty participant
list yields no rewards. -/
theorem calculateAllRewards_spec_witness :
    (poolRaid.calculateAllRewards poolEntries).map Reward.tokenAmount =
      [100, 300, 600] ∧
    poolRaid.calculateAllRewards ([] : List XpEntry) = [] := by
  have h := calculateAllRewards_spec poolRaid poolEntries
  have h2 := h.2.1 1000 (by rfl) (by rfl)
  have h3 := (calculateAllRewards_spec poolRaid []).2.2 (by rfl)
  refine ⟨?_, h3⟩
  have hfil : poolEntries.filter (eligibleEntry poolRaid.thresholdXp) =
      poolEntries := by decide
  have hsum : (poolEntries.map XpEntry.totalXp).sum = 1000 := by decide
  simp only [Raid.calculateAllRewards, hfil, hsum]
  norm_num [ratTruthy, poolRaid, poolEntries]

/-! ## C3: at most one UserAction per (user, raid, actionType) -/

/-- Filtering after appending a single row adds one exactly when the row
matches. -/
lemma filter_append_single_length (l : List UserAction) (row : UserAction)
    (p : UserAction → Bool) :
    ((l ++ [row]).filter p).length =
      (l.filter p).length + (if p row then 1 else 0) := by
  rw [List.filter_append, List.length_append]
  congr 1
  by_cases h : p row <;> simp [h]

/-- `recordUserAction` either leaves the `user_actions` rows unchanged, or
— only when the duplicate check did not fire — appends one row for
(userId, raidId, actionType). -/
lemma recordUserAction_actions_shape (r : Raid) (cfg : XpConfig) (tid : Int)
    (actionType : String) (ad : ActionData) (st : ActionState)
    (io so : Bool) :
    (r.recordUserAction cfg tid actionType ad st io so).2.actions = st.actions ∨
    ((st.actions.filter fun a =>
        a.userId == tid && a.raidId == r.id &&
          a.actionType == actionType).length ≠ 1 ∧
      ∃ xp : Nat, (r.recordUserAction cfg tid actionType ad st io so).2.actions =
        st.actions ++ [{ userId := tid, raidId := r.id, actionType := actionType
                         xpEarned := xp, verified := ad.verified }]) := by
  unfold Raid.recordUserAction
  by_cases hAct : r.isActive
  · by_cases hDup : (st.actions.filter fun a =>
        a.userId == tid && a.raidId == r.id &&
          a.actionType == actionType).length = 1
    · left
      simp [hAct, hDup]
    · right
      refine ⟨hDup, ?_⟩
      have hDupB : ((st.actions.filter fun a =>
          a.userId == tid && a.raidId == r.id &&
            a.actionType == actionType).length == 1) = false := by
        simpa using hDup
      cases hfind : st.users.find? (fun v => v.telegramId == tid) with
      | none =>
        exact ⟨(if actionType != "like" && ((st.actions.filter fun a =>
              a.userId == tid && a.raidId == r.id &&
                a.actionType == "like").length != 1)
            then 3 * getXpForAction cfg actionType ad / 4
            else getXpForAction cfg actionType ad), by simp [hAct, hDupB, hfind]⟩
      | some u0 =>
        cases io with
        | false =>
          exact ⟨(if actionType != "like" && ((st.actions.filter fun a =>
              a.userId == tid && a.raidId == r.id &&
                a.actionType == "like").length != 1)
            then 3 * getXpForAction cfg actionType ad / 4
            else getXpForAction cfg actionType ad), by simp [hAct, hDupB, hfind, User.addXp]⟩
        | true =>
          cases so with
          | false =>
            exact ⟨(if actionType != "like" && ((st.actions.filter fun a =>
              a.userId == tid && a.raidId == r.id &&
                a.actionType == "like").length != 1)
            then 3 * getXpForAction cfg actionType ad / 4
            else getXpForAction cfg actionType ad), by simp [hAct, hDupB, hfind, User.addXp]⟩
          | true =>
            exact ⟨(if actionType != "like" && ((st.actions.filter fun a =>
              a.userId == tid && a.raidId == r.id &&
                a.actionType == "like").length != 1)
            then 3 * getXpForAction cfg actionType ad / 4
            else getXpForAction cfg actionType ad), by simp [hAct, hDupB, hfind, User.addXp]⟩
  · left
    simp [hAct]

/-- C3: when a `user_actions` row for (userId, raidId, actionType) already
exists (uniquely, as the at-most-once invariant guarantees), recording is
rejected with the duplicate-action error and the persisted state — rows
and ledger — is unchanged; and `recordUserAction` preserves the
at-most-one-row-per-tuple invariant. -/
theorem recordUserAction_at_most_once (r : Raid) (cfg : XpConfig) (tid : Int)
    (actionType : String) (ad : ActionData) (st : ActionState) :
    (r.isActive = true →
      (st.actions.filter fun a =>
        a.userId == tid && a.raidId == r.id && a.actionType == actionType).length = 1 →
      r.recordUserAction cfg tid actionType ad st true true =
        (.err "You have already performed this action", st)) ∧
    (∀ (u : Int) (rid : Option Int) (ty : String),
      (st.actions.filter fun a =>
        a.userId == u && a.raidId == rid && a.actionType == ty).length ≤ 1 →
      (((r.recordUserAction cfg tid actionType ad st true true).2.actions.filter fun a =>
        a.userId == u && a.raidId == rid && a.actionType == ty).length ≤ 1)) := by
  constructor
  · intro hAct hDup
    unfold Raid.recordUserAction
    simp [hAct, hDup]
  · intro u rid ty hLe
    rcases recordUserAction_actions_shape r cfg tid actionType ad st true true with
      h | ⟨hDup, xp, h⟩
    · rw [h]
      exact hLe
    · rw [h, filter_append_single_length]
      split <;> rename_i hrow
      · simp only [Bool.and_eq_true, beq_iff_eq] at hrow
        obtain ⟨⟨h1, h2⟩, h3⟩ := hrow
        subst h1
        subst h2
        subst h3
        omega
      · omega

/-- An active raid with a comments target, used to exercise action
recording. -/
def activeRaid : Raid :=
  { id := some 1, tweetId := some "123"
    tweetUrl := some "https://twitter.com/u/status/123"
    adminId := some 5, chatId := some 9, startTime := 100, endTime := none
    isActive := true, targetLikes := 0, targetRetweets := 0, targetComments := 1
    actualLikes := 0, actualRetweets := 0, actualComments := 0
    tokenType := none, tokenSymbol := none, totalReward := none
    tokenPerXp := none, thresholdXp := 0, campaignId := none
    status := "active", messageId := none, duration := 3600
    requireVerification := .bool true, description := ""
    rewardsDistributed := .undef }

/-- A state in which user 3 already has a like row for raid 1. -/
def dupState : ActionState :=
  { actions := [{ userId := 3, raidId := some 1, actionType := "like"
                  xpEarned := 10, verified := true }]
    ledger := []
    users := [{ telegramId := 3, totalXp := 10, isVerified := true }] }

/-- Witness for C3: re-recording user 3's like on raid 1 is rejected with
the duplicate error, leaves the state untouched, and the per-tuple row
count stays at most one. -/
theorem recordUserAction_at_most_once_witness :
    activeRaid.recordUserAction defaultXpConfig 3 "like" {} dupState true true =
      (.err "You have already performed this action", dupState) ∧
    ((activeRaid.recordUserAction defaultXpConfig 3 "like" {} dupState
        true true).2.actions.filter fun a =>
      a.userId == 3 && a.raidId == activeRaid.id && a.actionType == "like").length ≤ 1 := by
  have h := recordUserAction_at_most_once activeRaid defaultXpConfig 3 "like" {} dupState
  exact ⟨h.1 (by rfl) (by decide), h.2 3 activeRaid.id "like" (by decide)⟩

/-! ## C7: deterministic XP with the 25% missing-like penalty -/

/-- Under the at-most-one-like-row invariant, the code's penalty test
(`hasLiked` row count different from one) coincides with "no prior like
row", and `Math.floor(xp * 0.75)` on an integer table value is
`3 * xp / 4` in integer division. -/
lemma penaltyXp_eq (cfg : XpConfig) (actionType : String) (ad : ActionData)
    (l : List UserAction) (hLe : l.length ≤ 1) :
    (if actionType != "like" && (l.length != 1)
      then 3 * getXpForAction cfg actionType ad / 4
      else getXpForAction cfg actionType ad) =
    (if actionType ≠ "like" ∧ l = []
      then 3 * getXpForAction cfg actionType ad / 4
      else getXpForAction cfg actionType ad) := by
  by_cases hc : actionType ≠ "like" ∧ l = []
  · rw [if_pos (by simp [bne_iff_ne, hc.1, hc.2]), if_pos hc]
  · have hb : (actionType != "like" && (l.length != 1)) = false := by
      rcases not_and_or.mp hc with h | h
      · rw [not_not] at h
        simp [h]
      · have hlen : l.length = 1 := by
          have hpos : 0 < l.length := List.length_pos.mpr h
          omega
        simp [hlen]
    rw [hb, if_neg hc]
    simp

/-- C7: a successfully recorded action earns exactly the table XP for its
action type (image and GIF tiers for comments), cut to
`floor(0.75 * xp)` precisely when the action is not a like and the user
has no prior like row for this raid; the same amount is credited to the
ledger with `previousTotal`/`newTotal` bookkeeping when the user exists. -/
theorem recordUserAction_xp_formula (r : Raid) (cfg : XpConfig) (tid : Int)
    (actionType : String) (ad : ActionData) (st : ActionState)
    (hAct : r.isActive = true)
    (hNoDup : (st.actions.filter fun a =>
      a.userId == tid && a.raidId == r.id && a.actionType == actionType).length ≠ 1)
    (hLikeCnt : (st.actions.filter fun a =>
      a.userId == tid && a.raidId == r.id && a.actionType == "like").length ≤ 1) :
    (r.recordUserAction cfg tid actionType ad st true true).1 =
      .ok (if actionType ≠ "like" ∧ (st.actions.filter fun a =>
            a.userId == tid && a.raidId == r.id && a.actionType == "like") = []
          then 3 * getXpForAction cfg actionType ad / 4
          else getXpForAction cfg actionType ad) ∧
    (∀ u : UserRec, st.users.find? (fun v => v.telegramId == tid) = some u →
      (r.recordUserAction cfg tid actionType ad st true true).2.ledger =
        st.ledger ++
          [{ userId := tid
             amount := ((if actionType ≠ "like" ∧ (st.actions.filter fun a =>
                 a.userId == tid && a.raidId == r.id && a.actionType == "like") = []
               then 3 * getXpForAction cfg actionType ad / 4
               else getXpForAction cfg actionType ad : Nat) : Int)
             sourceType := "raid", sourceId := r.id
             previousTotal := u.totalXp
             newTotal := u.totalXp + ((if actionType ≠ "like" ∧
                 (st.actions.filter fun a => a.userId == tid && a.raidId == r.id &&
                   a.actionType == "like") = []
               then 3 * getXpForAction cfg actionType ad / 4
               else getXpForAction cfg actionType ad : Nat) : Int) }]) := by
  have hDupB : ((st.actions.filter fun a =>
      a.userId == tid && a.raidId == r.id &&
        a.actionType == actionType).length == 1) = false := by
    simpa using hNoDup
  have hnil : ((st.actions.filter fun a =>
      a.userId == tid && a.raidId == r.id && a.actionType == "like") = []) ↔
      ¬((st.actions.filter fun a =>
        a.userId == tid && a.raidId == r.id &&
          a.actionType == "like").length = 1) := by
    rw [← List.length_eq_zero]
    omega
  unfold Raid.recordUserAction
  constructor
  · cases hfind : st.users.find? (fun v => v.telegramId == tid) with
    | none => simp [hAct, hDupB, hfind, hnil]
    | some u0 => simp [hAct, hDupB, hfind, User.addXp, hnil]
  · intro u hfind
    have hu : u.telegramId = tid := by
      simpa using List.find?_some hfind
    simp [hAct, hDupB, hfind, User.addXp, hnil, hu]

/-- A state holding only user 3 (XP total 7), with no action rows yet. -/
def freshState : ActionState :=
  { actions := [], ledger := []
    users := [{ telegramId := 3, totalXp := 7, isVerified := true }] }

/-- Witness for C7: user 3 records a comment with an image before liking:
table value 20, penalised to `floor(20 * 0.75) = 15`, and the ledger entry
moves the total from 7 to 22. -/
theorem recordUserAction_xp_formula_witness :
    (activeRaid.recordUserAction defaultXpConfig 3 "comment"
      { hasMedia := true, isGif := false, verified := true } freshState
      true true).1 = .ok 15 ∧
    (activeRaid.recordUserAction defaultXpConfig 3 "comment"
      { hasMedia := true, isGif := false, verified := true } freshState
      true true).2.ledger =
      [{ userId := 3, amount := 15, sourceType := "raid", sourceId := some 1
         previousTotal := 7, newTotal := 22 }] := by
  have h := recordUserAction_xp_formula activeRaid defaultXpConfig 3 "comment"
    { hasMedia := true, isGif := false, verified := true } freshState
    (by rfl) (by decide) (by decide)
  refine ⟨h.1.trans (by decide), ?_⟩
  have h2 := h.2 { telegramId := 3, totalXp := 7, isVerified := true } (by rfl)
  exact h2.trans (by decide)

/-! ## C6: ledger bookkeeping and the commit boundary of addXp -/

/-- Sum of a user's ledger amounts. -/
def ledgerSumFor (uid : Int) (l : List LedgerEntry) : Int :=
  ((l.filter fun e => e.userId == uid).map LedgerEntry.amount).sum

/-- Appending one entry adds its amount to the owner's ledger sum. -/
lemma ledgerSumFor_append (uid : Int) (l : List LedgerEntry) (e : LedgerEntry) :
    ledgerSumFor uid (l ++ [e]) =
      ledgerSumFor uid l + (if e.userId == uid then e.amount else 0) := by
  unfold ledgerSumFor
  rw [List.filter_append]
  by_cases h : e.userId == uid
  · simp [h]
  · simp [h]

/-- The user whose XP is credited in the C6 scenarios. -/
def demoUser : UserRec := { telegramId := 2, totalXp := 7, isVerified := true }

/-- A ledger in sync with `demoUser`'s cached total of 7. -/
def demoLedger : List LedgerEntry :=
  [{ userId := 2, amount := 7, sourceType := "raid", sourceId := some 1
     previousTotal := 0, newTotal := 7 }]

/-- C6 counterexample: the ledger insert succeeds and the cached-total
save fails; `addXp` reports failure, yet the inserted entry stays
committed — the user's ledger sum is now 12 while the cached total is
still 7, so the append *is* committed when the cached-total update fails,
contradicting the claimed single-logical-operation behaviour. -/
theorem addXp_uncommitted_append_counterexample :
    (User.addXp demoUser 5 "raid" (some 1) demoLedger true false).1 =
      .error "Failed to add XP to user" ∧
    (User.addXp demoUser 5 "raid" (some 1) demoLedger true false).2 =
      demoLedger ++ [{ userId := 2, amount := 5, sourceType := "raid"
                       sourceId := some 1, previousTotal := 7, newTotal := 12 }] ∧
    ledgerSumFor 2 (User.addXp demoUser 5 "raid" (some 1) demoLedger
      true false).2 = 12 ∧
    demoUser.totalXp = 7 :=
  ⟨by rfl, by decide, by decide, by rfl⟩

/-- C6 (amended): every entry `addXp` appends satisfies
`newTotal = previousTotal + amount`, and when both database writes
succeed an in-sync cached total stays equal to the ledger sum; but the
ledger insert and the cached-total save are two separate writes — when
the insert succeeds and the save fails, the appended entry remains
committed while the user's cached total is not updated, so the cached
total can drift from the sum of the ledger's entries. -/
theorem addXp_ledger_bookkeeping (u : UserRec) (amount : Int) (stype : String)
    (sid : Option Int) (ledger : List LedgerEntry) (io so : Bool) :
    (∀ e ∈ (User.addXp u amount stype sid ledger io so).2,
      e ∈ ledger ∨ e.newTotal = e.previousTotal + e.amount) ∧
    (io = true → so = true →
      u.totalXp = ledgerSumFor u.telegramId ledger →
      ∃ u', (User.addXp u amount stype sid ledger io so).1 = .ok u' ∧
        u'.telegramId = u.telegramId ∧
        u'.totalXp = ledgerSumFor u.telegramId
          (User.addXp u amount stype sid ledger io so).2) ∧
    (io = true → so = false →
      (User.addXp u amount stype sid ledger io so).2 =
        ledger ++ [{ userId := u.telegramId, amount := amount, sourceType := stype
                     sourceId := sid, previousTotal := u.totalXp
                     newTotal := u.totalXp + amount }] ∧
      (User.addXp u amount stype sid ledger io so).1 =
        .error "Failed to add XP to user") := by
  cases io with
  | false =>
    refine ⟨fun e he => .inl (by simpa [User.addXp] using he), ?_, ?_⟩
    · intro hio
      exact absurd hio (by simp)
    · intro hio
      exact absurd hio (by simp)
  | true =>
    cases so with
    | false =>
      refine ⟨?_, ?_, ?_⟩
      · intro e he
        simp only [User.addXp, if_true, Bool.false_eq_true, if_false,
          List.mem_append, List.mem_singleton] at he
        rcases he with he | he
        · exact .inl he
        · right
          subst he
          rfl
      · intro _ hso
        exact absurd hso (by simp)
      · intro _ _
        exact ⟨rfl, rfl⟩
    | true =>
      refine ⟨?_, ?_, ?_⟩
      · intro e he
        simp only [User.addXp, if_true, List.mem_append,
          List.mem_singleton] at he
        rcases he with he | he
        · exact .inl he
        · right
          subst he
          rfl
      · intro _ _ hsync
        refine ⟨{ u with totalXp := u.totalXp + amount }, rfl, rfl, ?_⟩
        simp only [User.addXp, if_true]
        rw [ledgerSumFor_append]
        simp [hsync]
      · intro _ hso
        exact absurd hso (by simp)

/-- Witness for C6 (amended): crediting 4 XP to `demoUser` over the
in-sync `demoLedger` succeeds with cached total 11 equal to the new
ledger sum, while the save-failure run reports the error. -/
theorem addXp_ledger_bookkeeping_witness :
    (User.addXp demoUser 4 "raid" (some 1) demoLedger true true).1 =
      .ok { telegramId := 2, totalXp := 11, isVerified := true } ∧
    ledgerSumFor 2 (User.addXp demoUser 4 "raid" (some 1) demoLedger
      true true).2 = 11 ∧
    (User.addXp demoUser 4 "raid" (some 1) demoLedger true false).1 =
      .error "Failed to add XP to user" := by
  have h := addXp_ledger_bookkeeping demoUser 4 "raid" (some 1) demoLedger true true
  have h1 := h.1 { userId := 2, amount := 7, sourceType := "raid"
                   sourceId := some 1, previousTotal := 0, newTotal := 7 }
    (by decide)
  have h2 := h.2.1 rfl rfl (by decide)
  have hf := (addXp_ledger_bookkeeping demoUser 4 "raid" (some 1) demoLedger
    true false).2.2 rfl rfl
  exact ⟨by rfl, by decide, hf.2⟩

/-! ## Save/termination lemmas -/

/-- A successful `save` returns exactly the constructor applied to the
validated instance's row. -/
lemma save_ok_eq (r : Raid) (now : Int) (r' : Raid) (h : r.save now = .ok r') :
    r' = raidOfData (r.validateFix).2.toRow now := by
  unfold Raid.save at h
  simp only [] at h
  split at h
  · exact absurd h (by simp)
  · exact ((mkRaid_eq_ok_iff _ _ _).mp h).2

/-- `validate()` never touches anything but `tweetId`. -/
lemma validateFix_snd (r : Raid) :
    (r.validateFix).2 = r ∨
      ∃ tid, (r.validateFix).2 = { r with tweetId := some tid } := by
  unfold Raid.validateFix
  dsimp only
  split
  · split
    · rename_i tid _
      right
      exact ⟨tid, rfl⟩
    · left
      rfl
  · left
    rfl

/-- A saved raid's `campaignId` is the stored one run through the
constructor's `campaign_id || campaignId || null` chain. -/
lemma save_ok_campaignId (r : Raid) (now : Int) (r' : Raid)
    (h : r.save now = .ok r') :
    r'.campaignId = intOrNull r.campaignId none := by
  have he := save_ok_eq r now r' h
  subst he
  rcases validateFix_snd r with hv | ⟨tid, hv⟩ <;> rw [hv] <;> rfl

/-- `updateStatistics` returns the instance with recounted actuals. -/
lemma updateStatistics_ok_eq (r : Raid) (acts : List UserAction) (now : Int)
    (r' : Raid) (h : r.updateStatistics acts now = .ok r') :
    r' = { r with
      actualLikes := countActions acts r.id "like"
      actualRetweets := countActions acts r.id "retweet"
      actualComments := countActions acts r.id "comment" } := by
  unfold Raid.updateStatistics at h
  simp only [] at h
  split at h
  · injection h with h'
    exact h'.symm
  · exact absurd h (by simp)

/-- A terminated raid keeps its (truthy-filtered) `campaignId`. -/
lemma endOp_ok_campaignId (r : Raid) (cancelled : Bool) (now : Int) (er : Raid)
    (h : r.endOp cancelled now = .ok er) :
    er.campaignId = intOrNull r.campaignId none := by
  unfold Raid.endOp at h
  cases hcan : cancelled <;> by_cases hET : intTruthy r.endTime <;>
    simp only [hcan, hET, Bool.false_eq_true, Bool.true_eq_false, if_true,
      if_false, ite_true, ite_false] at h <;>
    (have hx := save_ok_campaignId _ now er h
     rw [hx])

/-! ## C8: campaign-linked raids never self-settle -/

/-- C8: terminating a raid whose `campaignId` is set (truthy) never runs
reward distribution — the audit trail is unchanged and no transfer call
is made, whatever the termination reason, reward configuration or
participant set. -/
theorem campaign_raid_never_self_settles
    (transfer : SReward → Except String String) (r : Raid) (env : RaidEnv)
    (trail : List TokenTxRec) (cancelled : Bool) (now : Int)
    (h : intTruthy r.campaignId = true) :
    (endRaid transfer r env trail cancelled now).2.1 = trail ∧
    (endRaid transfer r env trail cancelled now).2.2 = [] := by
  unfold endRaid
  cases hend : r.endOp cancelled now with
  | error e => exact ⟨rfl, rfl⟩
  | ok er =>
    dsimp only
    have hcampB : intTruthy er.campaignId = true := by
      rw [endOp_ok_campaignId r cancelled now er hend]
      simp [intOrNull, h]
    cases hupd : er.updateStatistics env.actions now with
    | error e => exact ⟨rfl, rfl⟩
    | ok er2 =>
      have hcamp2 : intTruthy er2.campaignId = true := by
        rw [updateStatistics_ok_eq er env.actions now er2 hupd]
        exact hcampB
      simp [hcamp2]

/-! ## Normalization lemmas for constructor round-trips -/

/-- An `||`-chain result is `null` or truthy. -/
lemma strOrNull_shape (a b : Option String) :
    strOrNull a b = none ∨ strTruthy (strOrNull a b) = true := by
  unfold strOrNull
  split_ifs with h1 h2
  · right; exact h1
  · right; exact h2
  · left; rfl

/-- Normalized string fields are fixed by renormalization. -/
lemma strOrNull_self (z : Option String)
    (hz : z = none ∨ strTruthy z = true) : strOrNull z none = z := by
  rcases hz with rfl | hz
  · rfl
  · simp [strOrNull, hz]

/-- An integer `||`-chain result is `null` or truthy. -/
lemma intOrNull_shape (a b : Option Int) :
    intOrNull a b = none ∨ intTruthy (intOrNull a b) = true := by
  unfold intOrNull
  split_ifs with h1 h2
  · right; exact h1
  · right; exact h2
  · left; rfl

/-- Normalized integer fields are fixed by renormalization. -/
lemma intOrNull_self (z : Option Int)
    (hz : z = none ∨ intTruthy z = true) : intOrNull z none = z := by
  rcases hz with rfl | hz
  · rfl
  · simp [intOrNull, hz]

/-- A rational `||`-chain result is `null` or truthy. -/
lemma ratOrNull_shape (a b : Option ℚ) :
    ratOrNull a b = none ∨ ratTruthy (ratOrNull a b) = true := by
  unfold ratOrNull
  split_ifs with h1 h2
  · right; exact h1
  · right; exact h2
  · left; rfl

/-- Normalized rational fields are fixed by renormalization. -/
lemma ratOrNull_self (z : Option ℚ)
    (hz : z = none ∨ ratTruthy z = true) : ratOrNull z none = z := by
  rcases hz with rfl | hz
  · rfl
  · simp [ratOrNull, hz]

/-- With a zero default, `v || 0` is the identity. -/
lemma intOrD_zero_self (v : Int) : intOrD (some v) none 0 = v := by
  by_cases h : v = 0 <;> simp [intOrD, intTruthy, h]

/-- A nonzero-defaulted chain never yields zero. -/
lemma intOrD_ne_zero (a b : Option Int) (d : Int) (hd : d ≠ 0) :
    intOrD a b d ≠ 0 := by
  unfold intOrD
  split_ifs with h1 h2
  · simpa [intTruthy] using h1
  · simpa [intTruthy] using h2
  · exact hd

/-- A nonzero chain value is fixed by renormalization. -/
lemma intOrD_some_self (v d : Int) (hv : v ≠ 0) : intOrD (some v) none d = v := by
  simp [intOrD, intTruthy, hv]

/-- With an empty-string default, `s || ""` is the identity. -/
lemma strOrD_empty_self (s : String) : strOrD (some s) none "" = s := by
  by_cases h : s = "" <;> simp [strOrD, strTruthy, h]

/-- A chain with a nonempty default never yields the empty string. -/
lemma strOrD_ne_empty (a b : Option String) (d : String) (hd : d ≠ "") :
    strOrD a b d ≠ "" := by
  unfold strOrD
  split_ifs with h1 h2
  · simpa [strTruthy] using h1
  · simpa [strTruthy] using h2
  · exact hd

/-- A nonempty chain value is fixed by renormalization. -/
lemma strOrD_some_self (s d : String) (hs : s ≠ "") : strOrD (some s) none d = s := by
  simp [strOrD, strTruthy, hs]

/-- `v || w = v` for truthy `v`. -/
lemma jsOr_of_truthy (v w : JSVal) (h : v.truthy = true) : jsOr v w = v := by
  simp [jsOr, h]

/-- Truthiness survives the `x || null` normalization, for strings. -/
lemma strOrNull_none_truthy (a : Option String) :
    strTruthy (strOrNull a none) = strTruthy a := by
  unfold strOrNull
  split_ifs with h1 h2
  · rfl
  · exact absurd h2 (by decide)
  · cases hA : strTruthy a
    · decide
    · exact absurd hA h1

/-- Truthiness survives the `x || null` normalization, for integers. -/
lemma intOrNull_none_truthy (a : Option Int) :
    intTruthy (intOrNull a none) = intTruthy a := by
  unfold intOrNull
  split_ifs with h1 h2
  · rfl
  · exact absurd h2 (by decide)
  · cases hA : intTruthy a
    · decide
    · exact absurd hA h1

/-- Truthiness survives the `x || null` normalization, for rationals. -/
lemma ratOrNull_none_truthy (a : Option ℚ) :
    ratTruthy (ratOrNull a none) = ratTruthy a := by
  unfold ratOrNull
  split_ifs with h1 h2
  · rfl
  · exact absurd h2 (by decide)
  · cases hA : ratTruthy a
    · decide
    · exact absurd hA h1

attribute [ext] Raid

/-- A reconstructed raid's comments target is nonzero whenever the
constructor's guard held. -/
lemma targetComments_ne_zero (rd : RaidData) (now : Int)
    (hc : intTruthy rd.target_comments ∨ intTruthy rd.targetComments) :
    (raidOfData rd now).targetComments ≠ 0 := by
  show (if intTruthy rd.target_comments then rd.target_comments.getD 0
    else rd.targetComments.getD 0) ≠ 0
  split_ifs with h1
  · simpa [intTruthy] using h1
  · rcases hc with hc | hc
    · exact absurd hc h1
    · simpa [intTruthy] using hc

/-- The `target_comments` chain round-trips on any already-resolved
value. -/
lemma targetComments_roundtrip (tc : Int) :
    (if intTruthy (some tc) then (some tc).getD 0
      else (none : Option Int).getD 0) = tc := by
  by_cases h : tc = 0 <;> simp [intTruthy, h]

/-- The `require_verification || requireVerification || true` chain is
fixed on any already-coerced (truthy) value. -/
lemma jsOr_requireVerification_roundtrip (v : JSVal) (hv : v.truthy = true) :
    jsOr (jsOr v .undef) (.bool true) = v := by
  rw [jsOr_of_truthy v .undef hv, jsOr_of_truthy v _ hv]

/-- Saving a constructed raid's row reconstructs it exactly: the
constructor is idempotent on persisted rows (given a nonzero clock, so
that the resolved `startTime` stays truthy). -/
lemma mkRaid_toRow_fixpoint (rd : RaidData) (n1 n2 : Int) (hn1 : n1 ≠ 0)
    (hc : intTruthy rd.target_comments ∨ intTruthy rd.targetComments) :
    mkRaid (raidOfData rd n1).toRow n2 = .ok (raidOfData rd n1) := by
  have htc := targetComments_ne_zero rd n1 hc
  unfold mkRaid
  rw [if_pos (Or.inl (by simpa [Raid.toRow, intTruthy] using htc))]
  congr 1
  ext : 1
  · rfl
  · exact strOrNull_self _ (strOrNull_shape _ _)
  · exact strOrNull_self _ (strOrNull_shape _ _)
  · exact intOrNull_self _ (intOrNull_shape _ _)
  · exact intOrNull_self _ (intOrNull_shape _ _)
  · exact intOrD_some_self _ _ (intOrD_ne_zero _ _ _ hn1)
  · exact intOrNull_self _ (intOrNull_shape _ _)
  · rfl
  · exact intOrD_zero_self _
  · exact intOrD_zero_self _
  · exact targetComments_roundtrip _
  · exact intOrD_zero_self _
  · exact intOrD_zero_self _
  · exact intOrD_zero_self _
  · exact strOrNull_self _ (strOrNull_shape _ _)
  · exact strOrNull_self _ (strOrNull_shape _ _)
  · exact ratOrNull_self _ (ratOrNull_shape _ _)
  · exact ratOrNull_self _ (ratOrNull_shape _ _)
  · exact intOrD_zero_self _
  · exact intOrNull_self _ (intOrNull_shape _ _)
  · exact strOrD_some_self _ _ (strOrD_ne_empty _ _ _ (by decide))
  · exact intOrNull_self _ (intOrNull_shape _ _)
  · exact intOrD_some_self _ _ (intOrD_ne_zero _ _ _ (by decide))
  · exact jsOr_requireVerification_roundtrip _ (jsOr_bool_true_truthy _)
  · exact strOrD_empty_self _
  · rfl

/-- A successfully extracted tweet id is never the empty string. -/
lemma extractTweetId_ne_empty (s t : String) (h : extractTweetId s = some t) :
    t ≠ "" := by
  unfold extractTweetId at h
  split at h
  · split at h
    · simp only [] at h
      split_ifs at h with hcond
      injection h with h'
      subst h'
      exact hcond.1
    · exact absurd h (by simp)
  · exact absurd h (by simp)

/-- What a successful `save` tells us: the reconstruction, the empty
error list, and a nonzero comments target. -/
lemma save_ok_facts (r3 : Raid) (now : Int) (er : Raid)
    (h : r3.save now = .ok er) :
    er = raidOfData (r3.validateFix).2.toRow now ∧
    (r3.validateFix).1 = [] ∧ r3.targetComments ≠ 0 := by
  unfold Raid.save at h
  simp only [] at h
  split at h <;> rename_i hval
  · exact absurd h (by simp)
  · have hiff := (mkRaid_eq_ok_iff _ _ _).mp h
    refine ⟨hiff.2, by simpa using hval, ?_⟩
    have hc := hiff.1
    have htc : (r3.validateFix).2.targetComments = r3.targetComments := by
      rcases validateFix_snd r3 with hv | ⟨tid, hv⟩ <;> rw [hv]
    rcases hc with hc | hc
    · rw [← htc]
      simpa [Raid.toRow, intTruthy] using hc
    · exact absurd hc (by simp [Raid.toRow, intTruthy])

/-- `validate()` leaves every field other than `tweetId` unchanged. -/
lemma validateFix_preserves (x : Raid) :
    (x.validateFix).2.tweetUrl = x.tweetUrl ∧
    (x.validateFix).2.adminId = x.adminId ∧
    (x.validateFix).2.chatId = x.chatId ∧
    (x.validateFix).2.totalReward = x.totalReward ∧
    (x.validateFix).2.tokenType = x.tokenType ∧
    (x.validateFix).2.tokenSymbol = x.tokenSymbol ∧
    (x.validateFix).2.endTime = x.endTime ∧
    (x.validateFix).2.isActive = x.isActive ∧
    (x.validateFix).2.status = x.status := by
  rcases validateFix_snd x with hv | ⟨tid, hv⟩ <;> rw [hv] <;>
    exact ⟨rfl, rfl, rfl, rfl, rfl, rfl, rfl, rfl, rfl⟩

/-- When the instance already has a truthy tweet id, `validate()` does
not modify it. -/
lemma validateFix_of_truthy_id (x : Raid) (hid : strTruthy x.tweetId = true) :
    (x.validateFix).2 = x := by
  unfold Raid.validateFix
  dsimp only
  rw [if_neg (by simp [hid])]

/-- Decomposing an empty validation-error list into the individual
field facts. -/
lemma validateFix_nil_facts (x : Raid) (h : (x.validateFix).1 = []) :
    strTruthy x.tweetUrl = true ∧ intTruthy x.adminId = true ∧
    intTruthy x.chatId = true ∧
    strTruthy ((x.validateFix).2).tweetId = true ∧
    ¬(ratTruthy x.totalReward = true ∧
      (¬strTruthy x.tokenType = true ∨ ¬strTruthy x.tokenSymbol = true)) := by
  unfold Raid.validateFix at h ⊢
  dsimp only at h ⊢
  rw [List.append_eq_nil, List.append_eq_nil, List.append_eq_nil,
    List.append_eq_nil] at h
  obtain ⟨⟨⟨⟨h1, h2⟩, h3⟩, h4⟩, h5⟩ := h
  have hb1 : strTruthy x.tweetUrl = true := by
    by_contra hb
    simp [hb] at h1
  have hb2 : intTruthy x.adminId = true := by
    by_contra hb
    simp [hb] at h2
  have hb3 : intTruthy x.chatId = true := by
    by_contra hb
    simp [hb] at h3
  have hb5 : ¬(ratTruthy x.totalReward = true ∧
      (¬strTruthy x.tokenType = true ∨ ¬strTruthy x.tokenSymbol = true)) := by
    by_contra hb
    rw [if_pos hb] at h5
    simp at h5
  refine ⟨hb1, hb2, hb3, ?_, hb5⟩
  by_cases hcond : ¬strTruthy x.tweetId = true ∧ strTruthy x.tweetUrl = true
  · rw [if_pos hcond] at h4 ⊢
    revert h4
    cases hx : extractTweetId (x.tweetUrl.getD "") with
    | none =>
      intro h4
      simp at h4
    | some tid =>
      intro h4
      dsimp only
      simpa [strTruthy] using extractTweetId_ne_empty _ _ hx
  · rw [if_neg hcond]
    rcases not_and_or.mp hcond with hc | hc
    · simpa using hc
    · exact absurd hb1 hc

/-- Rebuilding the empty error list from the individual facts. -/
lemma validateFix_nil_of (x : Raid) (h1 : strTruthy x.tweetUrl = true)
    (h2 : intTruthy x.adminId = true) (h3 : intTruthy x.chatId = true)
    (hid : strTruthy x.tweetId = true)
    (h5 : ¬(ratTruthy x.totalReward = true ∧
      (¬strTruthy x.tokenType = true ∨ ¬strTruthy x.tokenSymbol = true))) :
    (x.validateFix).1 = [] := by
  unfold Raid.validateFix
  dsimp only
  rw [if_neg (show ¬(¬strTruthy x.tweetId = true ∧ strTruthy x.tweetUrl = true)
    by simp [hid])]
  rw [if_neg (by simp [h1]), if_neg (by simp [h2]), if_neg (by simp [h3]),
    if_neg h5]
  rfl

/-- A raid that has been saved once can be saved again unchanged: the
validation passes and the constructor round-trips. -/
lemma save_ok_resave (r3 : Raid) (now now2 : Int) (er : Raid) (hnow : now ≠ 0)
    (h : r3.save now = .ok er) : er.save now2 = .ok er := by
  obtain ⟨her, hnil, htc⟩ := save_ok_facts r3 now er h
  obtain ⟨h1, h2, h3, hid, h5⟩ := validateFix_nil_facts r3 hnil
  obtain ⟨pUrl, pAdm, pChat, pTot, pTy, pSym, -, -, -⟩ :=
    validateFix_preserves r3
  have herUrl : strTruthy er.tweetUrl = true := by
    rw [her]
    show strTruthy (strOrNull (r3.validateFix).2.tweetUrl none) = true
    rw [strOrNull_none_truthy, pUrl, h1]
  have herAdm : intTruthy er.adminId = true := by
    rw [her]
    show intTruthy (intOrNull (r3.validateFix).2.adminId none) = true
    rw [intOrNull_none_truthy, pAdm, h2]
  have herChat : intTruthy er.chatId = true := by
    rw [her]
    show intTruthy (intOrNull (r3.validateFix).2.chatId none) = true
    rw [intOrNull_none_truthy, pChat, h3]
  have herId : strTruthy er.tweetId = true := by
    rw [her]
    show strTruthy (strOrNull (r3.validateFix).2.tweetId none) = true
    rw [strOrNull_none_truthy, hid]
  have herE5 : ¬(ratTruthy er.totalReward = true ∧
      (¬strTruthy er.tokenType = true ∨ ¬strTruthy er.tokenSymbol = true)) := by
    have e1 : ratTruthy er.totalReward = ratTruthy r3.totalReward := by
      rw [her]
      show ratTruthy (ratOrNull (r3.validateFix).2.totalReward none) = _
      rw [ratOrNull_none_truthy, pTot]
    have e2 : strTruthy er.tokenType = strTruthy r3.tokenType := by
      rw [her]
      show strTruthy (strOrNull (r3.validateFix).2.tokenType none) = _
      rw [strOrNull_none_truthy, pTy]
    have e3 : strTruthy er.tokenSymbol = strTruthy r3.tokenSymbol := by
      rw [her]
      show strTruthy (strOrNull (r3.validateFix).2.tokenSymbol none) = _
      rw [strOrNull_none_truthy, pSym]
    rw [e1, e2, e3]
    exact h5
  have hfix2 : (er.validateFix).2 = er := validateFix_of_truthy_id er herId
  have hnil2 : (er.validateFix).1 = [] :=
    validateFix_nil_of er herUrl herAdm herChat herId herE5
  unfold Raid.save
  simp only []
  rw [if_neg (by simp [hnil2]), hfix2, her]
  have hcond : intTruthy ((r3.validateFix).2.toRow).target_comments = true ∨
      intTruthy ((r3.validateFix).2.toRow).targetComments = true := by
    left
    have htc2 : (r3.validateFix).2.targetComments = r3.targetComments := by
      rcases validateFix_snd r3 with hv | ⟨tid, hv⟩ <;> rw [hv]
    simp [Raid.toRow, intTruthy, htc2, htc]
  exact mkRaid_toRow_fixpoint _ now now2 hnow hcond

/-- `isTargetMet` is invariant under the save/reload round trip. -/
lemma isTargetMet_save (r3 : Raid) (now : Int) (er : Raid)
    (h : r3.save now = .ok er) : er.isTargetMet = r3.isTargetMet := by
  obtain ⟨her, -, -⟩ := save_ok_facts r3 now er h
  rw [her]
  unfold Raid.isTargetMet
  rcases validateFix_snd r3 with hv | ⟨tid, hv⟩ <;> rw [hv] <;>
    simp only [raidOfData, Raid.toRow, intOrD_zero_self, targetComments_roundtrip]

/-- Core of termination idempotence: re-terminating a saved raid whose
terminal fields already agree with the would-be recomputation is a no-op
returning the same instance. -/
lemma endOp_fix_aux (r3 : Raid) (now now2 : Int) (er : Raid) (cancelled : Bool)
    (hnow : now ≠ 0) (h : r3.save now = .ok er)
    (hET : intTruthy er.endTime = true)
    (hA : er.isActive = false)
    (hstat : (if cancelled then "cancelled"
      else if er.isTargetMet then "completed" else "failed") = er.status) :
    er.endOp cancelled now2 = .ok er := by
  unfold Raid.endOp
  rw [if_pos hET]
  cases hcan : cancelled with
  | true =>
    have hst : "cancelled" = er.status := by simpa [hcan] using hstat
    show Raid.save { er with status := "cancelled", isActive := false } now2 =
      .ok er
    rw [hst, ← hA]
    exact save_ok_resave r3 now now2 er hnow h
  | false =>
    have hst : (if er.isTargetMet then "completed" else "failed") = er.status := by
      simpa [hcan] using hstat
    show Raid.save { er with
      status := if er.isTargetMet then "completed" else "failed"
      isActive := false } now2 = .ok er
    rw [hst, ← hA]
    exact save_ok_resave r3 now now2 er hnow h

/-- C2 (amended): `Raid.end` is idempotent only option-wise — terminating
an already-terminated raid again *with the same cancelled option* returns
exactly the same raid state and no error.  (It is not idempotent in the
claimed sense: the status is recomputed on every call and the settlement
guard reads a `rewardsDistributed` property that is never persisted, as
the counterexample shows.) -/
theorem endOp_same_options_idempotent (r : Raid) (cancelled : Bool)
    (now now2 : Int) (er : Raid) (hnow : now ≠ 0)
    (h : r.endOp cancelled now = .ok er) :
    er.endOp cancelled now2 = .ok er := by
  have hmain : ∀ (c : Bool) (r3 : Raid), r3.save now = .ok er →
      r3.isActive = false → intTruthy r3.endTime = true →
      r3.status = (if c then "cancelled"
        else if r3.isTargetMet then "completed" else "failed") →
      er.endOp c now2 = .ok er := by
    intro c r3 hs hA3 hET3 hst3
    obtain ⟨her, -, -⟩ := save_ok_facts r3 now er hs
    obtain ⟨-, -, -, -, -, -, pEnd, pAct, pStat⟩ := validateFix_preserves r3
    have hETer : intTruthy er.endTime = true := by
      rw [her]
      show intTruthy (intOrNull (r3.validateFix).2.endTime none) = true
      rw [intOrNull_none_truthy, pEnd, hET3]
    have hAer : er.isActive = false := by
      rw [her]
      show (r3.validateFix).2.isActive = false
      rw [pAct, hA3]
    have hne : r3.status ≠ "" := by
      rw [hst3]
      split
      · decide
      · split <;> decide
    have hst : er.status = r3.status := by
      rw [her]
      show strOrD (some (r3.validateFix).2.status) none "active" = r3.status
      rw [pStat]
      exact strOrD_some_self _ _ hne
    have hTM := isTargetMet_save r3 now er hs
    refine endOp_fix_aux r3 now now2 er c hnow hs hETer hAer ?_
    rw [hTM, hst, hst3]
  unfold Raid.endOp at h
  cases hcan : cancelled <;> by_cases hET : intTruthy r.endTime = true <;>
    simp only [hcan, hET, Bool.false_eq_true, Bool.true_eq_false, if_true,
      if_false, ite_true, ite_false] at h <;>
    refine hmain _ _ h rfl ?_ ?_ <;>
    first
      | exact hET
      | exact rfl
      | (show intTruthy (some now) = true
         simp [intTruthy, hnow])

/-- When the rewards guard and the non-campaign guard hold, `endRaid`
invokes the settlement loop: its transfer calls are exactly the
complete-data rewards of the batch. -/
lemma endRaid_distributes (transfer : SReward → Except String String)
    (r : Raid) (env : RaidEnv) (trail : List TokenTxRec) (cancelled : Bool)
    (now : Int) (er er2 : Raid)
    (hend : r.endOp cancelled now = .ok er)
    (hupd : er.updateStatistics env.actions now = .ok er2)
    (hguard : (er2.status == "completed" &&
      (ratTruthy er2.totalReward || ratTruthy er2.tokenPerXp) &&
      !er2.rewardsDistributed.truthy) = true)
    (hlen : 0 < (er2.calculateAllRewards env.xpEntries).length)
    (hnocamp : intTruthy er2.campaignId = false) :
    (endRaid transfer r env trail cancelled now).2.2 =
      (((er2.calculateAllRewards env.xpEntries).map Reward.toSReward).filter
        SReward.hasRequiredData).map SReward.telegramId := by
  unfold endRaid
  rw [hend]
  dsimp only
  rw [hupd]
  dsimp only
  rw [if_pos hguard, if_pos (by simp [hlen, hnocamp])]
  cases hs : ({ er2 with rewardsDistributed := JSVal.bool true }).save now with
  | ok er3 =>
    dsimp only
    exact distributeRewards_calls transfer _ trail
  | error e =>
    dsimp only
    exact distributeRewards_calls transfer _ trail

/-- The always-succeeding transfer collaborator used in the concrete
termination scenarios. -/
def okTransfer : SReward → Except String String := fun _ => .ok "0xtx"

/-- An active raid with a comments target of 1 (already met), a 100-token
reward pool and no campaign link. -/
def settleRaid : Raid :=
  { id := some 1, tweetId := some "123"
    tweetUrl := some "https://twitter.com/u/status/123"
    adminId := some 5, chatId := some 9, startTime := 100, endTime := none
    isActive := true, targetLikes := 0, targetRetweets := 0, targetComments := 1
    actualLikes := 0, actualRetweets := 0, actualComments := 1
    tokenType := some "0x2::sui::SUI", tokenSymbol := some "SUI"
    totalReward := some 100, tokenPerXp := none, thresholdXp := 0
    campaignId := none, status := "active", messageId := none, duration := 3600
    requireVerification := .bool true, description := ""
    rewardsDistributed := .undef }

/-- One participant: user 7 commented, earning 15 XP, wallet connected. -/
def settleEnv : RaidEnv :=
  { actions := [{ userId := 7, raidId := some 1, actionType := "comment"
                  xpEarned := 15, verified := true }]
    xpEntries := [{ userId := 7, totalXp := 15, walletConnected := true
                    walletAddress := "0xabc" }] }

/-- `settleRaid` after one completed (not yet settled) termination, as
stored. -/
def endedOnce : Raid :=
  { settleRaid with endTime := some 200, status := "completed"
                    isActive := false }

/-- The in-memory raid instance `endRaid` hands back after a settlement
run: the `rewardsDistributed = true` assignment lives only on the
instance. -/
def onceEndedRaid : Raid :=
  { endedOnce with rewardsDistributed := .bool true }

/-- `settleRaid` cancelled. -/
def cancelledRaid : Raid :=
  { settleRaid with endTime := some 200, status := "cancelled"
                    isActive := false }

/-- The settlement-loop view of user 7's computed reward. -/
def sr7 : SReward :=
  { telegramId := 7, walletAddress := some "0xabc"
    tokenAmount := some ((((15 : ℕ) : ℚ) / ((15 : ℕ) : ℚ)) * 100)
    tokenType := some "0x2::sui::SUI" }

/-- User 7's reward data passes the settlement validation (the amount
`15/15 * 100` is nonzero). -/
lemma sr7_hasRequiredData : sr7.hasRequiredData = true := by
  show (strTruthy (some "0xabc") &&
    ratTruthy (some ((((15 : ℕ) : ℚ) / ((15 : ℕ) : ℚ)) * 100)) &&
    strTruthy (some "0x2::sui::SUI")) = true
  simp [strTruthy, ratTruthy]

/-- C2 counterexample: terminating `settleRaid` settles user 7 once
(`calls = [7]`); terminating the returned raid a second time settles user
7 *again* (`rewardsDistributed` was never persisted), so two identical
settlement batches run instead of one; and re-terminating a `cancelled`
raid without the cancelled option flips its status to `completed` instead
of being a no-op on the terminal state. -/
theorem raid_termination_not_idempotent :
    (endRaid okTransfer settleRaid settleEnv [] false 200).1 =
      .ok onceEndedRaid ∧
    (endRaid okTransfer settleRaid settleEnv [] false 200).2.2 = [7] ∧
    (endRaid okTransfer onceEndedRaid settleEnv
      (endRaid okTransfer settleRaid settleEnv [] false 200).2.1
      false 300).2.2 = [7] ∧
    cancelledRaid.status = "cancelled" ∧
    (endRaid okTransfer cancelledRaid settleEnv [] false 300).1 =
      .ok onceEndedRaid := by
  have hrew : endedOnce.calculateAllRewards settleEnv.xpEntries = [
    { telegramId := 7, walletAddress := "0xabc", xpAmount := 15
      tokenAmount := (((15 : ℕ) : ℚ) / ((15 : ℕ) : ℚ)) * 100
      tokenSymbol := some "SUI", tokenType := some "0x2::sui::SUI"
      raidId := some 1, campaignId := none }] := rfl
  have hmap : (endedOnce.calculateAllRewards settleEnv.xpEntries).map
      Reward.toSReward = [sr7] := rfl
  have hfil : (((endedOnce.calculateAllRewards settleEnv.xpEntries).map
      Reward.toSReward).filter SReward.hasRequiredData).map
      SReward.telegramId = [7] := by
    rw [hmap]
    simp [List.filter, SReward.hasRequiredData, sr7, strTruthy, ratTruthy,
      show ((100 : ℚ) != 0) = true from by simp [bne_iff_ne]]
  have hcalls1 := endRaid_distributes okTransfer settleRaid settleEnv []
    false 200 endedOnce endedOnce rfl rfl (by decide) (by decide) (by decide)
  have hcalls2 := endRaid_distributes okTransfer onceEndedRaid settleEnv
    (endRaid okTransfer settleRaid settleEnv [] false 200).2.1
    false 300 endedOnce endedOnce rfl rfl (by decide) (by decide) (by decide)
  have hcalls3 := endRaid_distributes okTransfer cancelledRaid settleEnv []
    false 300 endedOnce endedOnce rfl rfl (by decide) (by decide) (by decide)
  refine ⟨rfl, ?_, ?_, rfl, rfl⟩
  · rw [hcalls1, hfil]
  · rw [hcalls2, hfil]

/-- Witness for C2 (amended): terminating `settleRaid` and then
re-terminating the stored result with the same options returns the same
raid state with no error. -/
theorem endOp_same_options_idempotent_witness :
    settleRaid.endOp false 200 = .ok endedOnce ∧
    endedOnce.endOp false 300 = .ok endedOnce := by
  have h1 : settleRaid.endOp false 200 = .ok endedOnce := rfl
  exact ⟨h1,
    endOp_same_options_idempotent settleRaid false 200 300 endedOnce
      (by decide) h1⟩

/-- `settleRaid` linked to campaign 4. -/
def campaignRaid : Raid := { settleRaid with campaignId := some 4 }

/-- Witness for C8: terminating the campaign-linked `campaignRaid` —
rewards configured and a funded participant present — leaves the audit
trail empty and makes no transfer call. -/
theorem campaign_raid_never_self_settles_witness :
    (endRaid okTransfer campaignRaid settleEnv [] false 200).2.1 = [] ∧
    (endRaid okTransfer campaignRaid settleEnv [] false 200).2.2 = [] :=
  campaign_raid_never_self_settles okTransfer campaignRaid settleEnv []
    false 200 (by decide)

end SuiRaid
